import Mathlib

/-!
Verification of the PingMeet reminder core against its natural-language
specification.  The JavaScript source is shallowly embedded: JS strings are
modelled as `List Char`, epoch-millisecond instants as `Int` (a JS number
holding an integral ms value), `NaN`-producing date parses as `Option`, and
the Chrome facilities (alarms, local storage) as explicit state records.
All definitions follow the source files under `src/` (file and line
references are given at each definition); the only spec-modelled component
is `StorageManager`, whose implementation file is absent from the tree.
-/

namespace PingMeet

/-! ## JS string primitives

JS strings are modelled as `List Char`.  `isJsSpace` covers the `\s`
character class on the ASCII range (the titles manipulated by the code). -/

/-- A JS string, modelled as its list of characters. -/
abbrev JStr := List Char

/-- Membership of the JS `\s` class (ASCII range). -/
def isJsSpace (c : Char) : Bool :=
  c = ' ' || c = '\t' || c = '\n' || c = '\r' || c = '\x0b' || c = '\x0c'

/-- JS `String.prototype.toLowerCase` (locale-independent, ASCII-adequate). -/
def jsLower (s : JStr) : JStr := s.map Char.toLower

/-- JS `String.prototype.trim`: strip leading and trailing whitespace. -/
def jsTrim (s : JStr) : JStr :=
  ((s.dropWhile isJsSpace).reverse.dropWhile isJsSpace).reverse

/-- Worker for `jsCollapseWs`: `inRun` records whether the previous
character was part of a whitespace run already replaced by `'-'`. -/
def collapseGo : JStr → Bool → JStr
  | [], _ => []
  | c :: cs, inRun =>
    if isJsSpace c then
      if inRun then collapseGo cs true else '-' :: collapseGo cs true
    else
      c :: collapseGo cs false

/-- JS `.replace(/\s+/g, '-')`: each maximal whitespace run becomes one `'-'`. -/
def jsCollapseWs (s : JStr) : JStr := collapseGo s false

/-- JS number-to-string coercion for an integral value (template literal
`${n}`). -/
def jsNumStr (n : Int) : JStr := (toString n).toList

/-! ## Data model

`src/src/utils/calendar-api.js` and the content scripts produce events of
this shape; `src/src/reminder/reminder.js` consumes them.  A field that JS
may leave `undefined` is an `Option`.  `startTime`/`endTime` carry the raw
value's two failure modes: `none` = absent (falsy, so `!event.startTime`
takes the early exit), `some none` = present but unparseable (`new Date`
yields `NaN`), `some (some t)` = parses to instant `t` (epoch ms). -/

/-- One entry of `event.attendees` (see `parseGoogleEvents`,
`src/src/utils/calendar-api.js:1135-1140`). -/
structure Attendee where
  name : Option JStr
  email : Option JStr
  responseStatus : JStr
  self : Bool
deriving DecidableEq, Repr

/-- A raw meeting event in PingMeet format. -/
structure Event where
  id : JStr
  title : Option JStr
  startTime : Option (Option Int)
  endTime : Option (Option Int)
  attendees : List Attendee
  meetingLink : Option JStr
  description : Option JStr
  location : Option JStr
  source : JStr
  hasConflict : Bool := false
  conflictCount : Nat := 0
deriving DecidableEq, Repr

/-- `new Date(v).getTime()` for a raw start/end value: `NaN` (here `none`)
when the value is absent or unparseable. -/
def dateMs (v : Option (Option Int)) : Option Int := v.bind id

/-- JS truthiness of an optional string (`undefined`, `null` and `''` are
falsy). -/
def jsTruthyStr : Option JStr → Bool
  | none => false
  | some s => !s.isEmpty

/-- JS `o?.length || 0` for an optional string field. -/
def jsOptLen : Option JStr → Nat
  | none => 0
  | some s => s.length

/-! ## Identity keys

The Reconciler's deduplication key
(`src/src/reminder/reminder.js:1399-1403`):
`event.title.toLowerCase().trim()` + `'_'` + the start time rounded down to
the minute.  Accessing `.toLowerCase` of a missing title throws, hence the
`Option` result (`none` = TypeError).  The rounded time prints as `NaN`
when the start time does not parse, exactly as the JS template literal
does. -/

/-- `Math.floor(startTime.getTime() / 60000) * 60000` (JS `Math.floor`
floors toward negative infinity, `Int.fdiv` likewise). -/
def roundToMinute (t : Int) : Int := t.fdiv 60000 * 60000

/-- The string the template literal renders for the rounded start time:
digits, or `NaN` for an absent/unparseable date. -/
def roundedTimeStr (v : Option (Option Int)) : JStr :=
  match dateMs v with
  | some t => jsNumStr (roundToMinute t)
  | none => "NaN".toList

/-- Reconciler identity key (`deduplicateEvents`,
`src/src/reminder/reminder.js:1399-1403`); `none` models the TypeError on
a missing title. -/
def dedupKey (e : Event) : Option JStr :=
  e.title.map (fun t => jsLower t |> jsTrim |>.append ('_' :: roundedTimeStr e.startTime))

/-- Scheduler trigger-name normalization
(`src/src/reminder/reminder.js:1232`):
`(event.title || '').toLowerCase().trim().replace(/\s+/g, '-')`. -/
def normalizedTitle (t : Option JStr) : JStr :=
  jsCollapseWs (jsTrim (jsLower (t.getD [])))

/-- Scheduler trigger (alarm) name
(`src/src/reminder/reminder.js:1230-1233`):
`ALARM_NAMES.MEETING_PREFIX` (`'meeting_'`) + normalized title + `'_'` +
rounded start time. -/
def alarmKey (e : Event) : JStr :=
  "meeting_".toList ++ normalizedTitle e.title ++ '_' :: roundedTimeStr e.startTime

/-! ## Event Reconciler (`deduplicateEvents`, `hasMoreDetails`)

`src/src/reminder/reminder.js:1395-1445`. -/

/-- Richness score of `hasMoreDetails`
(`src/src/reminder/reminder.js:1434-1437`):
`(meetingLink ? 2 : 0) + (attendees?.length || 0) + (description?.length
|| 0) + (location?.length || 0)`. -/
def richness (a : Event) : Nat :=
  (if jsTruthyStr a.meetingLink then 2 else 0) + a.attendees.length
    + jsOptLen a.description + jsOptLen a.location

/-- `hasMoreDetails(a, b)` (`src/src/reminder/reminder.js:1433-1445`):
true iff `a`'s richness score strictly exceeds `b`'s. -/
def hasMoreDetails (a b : Event) : Bool := richness a > richness b

/-- JS `Map.prototype.set`: replace the binding when the key is present,
append it otherwise. -/
def mapSet (m : List (JStr × Event)) (k : JStr) (v : Event) :
    List (JStr × Event) :=
  if m.any (fun p => p.1 = k) then
    m.map (fun p => if p.1 = k then (k, v) else p)
  else m ++ [(k, v)]

/-- Loop body of `deduplicateEvents`
(`src/src/reminder/reminder.js:1399-1422`): `seen` is the `Map`, `result`
the output array.  `none` models the TypeError thrown by
`event.title.toLowerCase()` when the title is missing. -/
def dedupGo : List Event → List (JStr × Event) → List Event →
    Option (List Event)
  | [], _, result => some result
  | e :: rest, seen, result =>
    match e.title with
    | none => none
    | some t =>
      let key := jsTrim (jsLower t) ++ '_' :: roundedTimeStr e.startTime
      match seen.lookup key with
      | some existing =>
        if hasMoreDetails e existing then
          let idx := result.indexOf existing
          if idx < result.length then
            dedupGo rest (mapSet seen key e) (result.set idx e)
          else
            dedupGo rest seen result
        else
          dedupGo rest seen result
      | none => dedupGo rest ((key, e) :: seen) (result ++ [e])

/-- `deduplicateEvents(events)` (`src/src/reminder/reminder.js:1395-1425`);
`none` = a TypeError escaped (missing title). -/
def deduplicateEvents (events : List Event) : Option (List Event) :=
  dedupGo events [] []

/-! ## Reminder Scheduler state

The durable-timer facility (`chrome.alarms`) is modelled as a raw list of
named timers, so that a second timer under an existing name is
representable and the `get`-before-`create` guard of `scheduleReminder`
carries the uniqueness invariant, rather than the map type doing so.
`chrome.storage.local` splits into the `'alarm_…'` snapshot keys
(`store`) and the `'events'` canonical list (`events`). -/

/-- Settings relevant to scheduling (`DEFAULT_SETTINGS.reminderMinutes =
2`, `src/src/utils/constants.js:28`; `getSettings` merges stored settings
over the defaults, so the field is always present). -/
structure SchedSettings where
  reminderMinutes : Int
deriving DecidableEq, Repr

/-- The scheduler-visible world: named durable timers, the snapshot store,
the persisted canonical list, settings, and the current clock. -/
structure SchedState where
  alarms : List (JStr × Int)
  store : List (JStr × Event)
  events : List Event
  settings : SchedSettings
  now : Int
deriving DecidableEq, Repr

/-- `chrome.alarms.get(name)`: the live alarm with that name, if any. -/
def alarmGet (alarms : List (JStr × Int)) (name : JStr) :
    Option (JStr × Int) :=
  alarms.find? (fun a => a.1 = name)

/-- `chrome.alarms.create(name, {when})`, as the raw facility sees it. -/
def alarmCreate (alarms : List (JStr × Int)) (name : JStr) (whenMs : Int) :
    List (JStr × Int) :=
  alarms ++ [(name, whenMs)]

/-- `chrome.alarms.clear(name)`: remove the timer(s) with that name. -/
def alarmClear (alarms : List (JStr × Int)) (name : JStr) :
    List (JStr × Int) :=
  alarms.filter (fun a => a.1 ≠ name)

/-- Number of live timers that carry a given name. -/
def alarmCount (alarms : List (JStr × Int)) (name : JStr) : Nat :=
  alarms.countP (fun a => a.1 = name)

/-- Modelled from the spec: `StorageManager`'s snapshot-key scheme.  The
implementation file `src/utils/storage.js` is absent from the tree; per
`STORAGE_KEYS.ALARM_PREFIX = 'alarm_'` (`src/src/utils/constants.js:23`),
spec §6 ("persistent key-value store: get/set/remove"), and
`test/storage-manager.test.js` ("should save event with alarm prefix",
"should remove event by ID"), `saveEvent(k, e)` sets local key
`'alarm_' + k`, `removeEvent(k)` removes `'alarm_' + k`. -/
def storageKey (k : JStr) : JStr := "alarm_".toList ++ k

/-- Modelled from the spec: `StorageManager.saveEvent` — set a key in the
read-after-write-consistent store (replace if present). -/
def storeSet (m : List (JStr × Event)) (k : JStr) (v : Event) :
    List (JStr × Event) :=
  if m.any (fun p => p.1 = k) then
    m.map (fun p => if p.1 = k then (k, v) else p)
  else m ++ [(k, v)]

/-- Modelled from the spec: `StorageManager.removeEvent` — drop a key. -/
def storeRemove (m : List (JStr × Event)) (k : JStr) :
    List (JStr × Event) :=
  m.filter (fun p => p.1 ≠ k)

/-- `event.attendees?.find(a => a.self)?.responseStatus === 'declined'`
(`src/src/reminder/reminder.js:1222-1223`). -/
def userDeclined (e : Event) : Bool :=
  match e.attendees.find? (fun a => a.self) with
  | some a => a.responseStatus = "declined".toList
  | none => false

/-- `scheduleReminder(event)` (`src/src/reminder/reminder.js:1215-1263`).
Early exits in source order: missing start time; declined by the user;
an alarm with the derived name already exists; the reminder instant is
not in the future (a `NaN` start never passes that comparison). -/
def scheduleReminder (s : SchedState) (e : Event) : SchedState :=
  match e.startTime with
  | none => s
  | some st =>
    if userDeclined e then s
    else
      match alarmGet s.alarms (alarmKey e) with
      | some _ => s
      | none =>
        match st with
        | none => s
        | some t =>
          if s.now < t - s.settings.reminderMinutes * 60000 then
            { s with
                alarms := alarmCreate s.alarms (alarmKey e)
                  (t - s.settings.reminderMinutes * 60000),
                store := storeSet s.store (storageKey (alarmKey e)) e }
          else s

/-- `handleDecline(eventId)` (`src/src/reminder/reminder.js:1123-1135`):
clear the alarm named `'meeting_' + eventId` and remove the stored event
under key `eventId` (storage prepends `'alarm_'`). -/
def handleDecline (s : SchedState) (eventId : JStr) : SchedState :=
  { s with
      alarms := alarmClear s.alarms ("meeting_".toList ++ eventId),
      store := storeRemove s.store (storageKey eventId) }

/-- `loadStoredEvents()` (`src/src/reminder/reminder.js:1381-1388`): on
startup, re-walk the persisted canonical list and re-attempt scheduling
for each entry. -/
def loadStoredEvents (s : SchedState) : SchedState :=
  s.events.foldl scheduleReminder s

/-! ## Conflict Detector (`src/src/utils/conflict-detector.js`) -/

/-- Effective end instant: `event.endTime ? new Date(event.endTime) :
new Date(start + 60*60*1000)` (`src/src/utils/conflict-detector.js:47`);
`none` = `NaN` (present but unparseable end). -/
def effEnd (s : Int) (et : Option (Option Int)) : Option Int :=
  match et with
  | none => some (s + 60 * 60 * 1000)
  | some v => v

/-- `eventsOverlap(event1, event2)`
(`src/src/utils/conflict-detector.js:45-53`): `start1 < end2 && start2 <
end1`; any `NaN` operand makes both JS comparisons false. -/
def eventsOverlap (e1 e2 : Event) : Bool :=
  match dateMs e1.startTime, dateMs e2.startTime with
  | some s1, some s2 =>
    match effEnd s1 e1.endTime, effEnd s2 e2.endTime with
    | some en1, some en2 => decide (s1 < en2) && decide (s2 < en1)
    | _, _ => false
  | _, _ => false

/-- `calculateSeverity(event1, event2)`
(`src/src/utils/conflict-detector.js:61-86`).  The minute count is the
exact rational `(overlapEnd - overlapStart) / (1000*60)`; at these
magnitudes the JS double comparison against 30 and 15 agrees with the
exact one.  `NaN` starts/ends fail every comparison, landing on `low`. -/
def calculateSeverity (e1 e2 : Event) : JStr :=
  match dateMs e1.startTime, dateMs e2.startTime with
  | some s1, some s2 =>
    if s1 = s2 then "high".toList
    else
      match effEnd s1 e1.endTime, effEnd s2 e2.endTime with
      | some en1, some en2 =>
        let overlapStart := max s1 s2
        let overlapEnd := min en1 en2
        let overlapMinutes : ℚ := ((overlapEnd : ℚ) - (overlapStart : ℚ)) / (1000 * 60)
        if 30 < overlapMinutes then "high".toList
        else if 15 < overlapMinutes then "medium".toList
        else "low".toList
      | _, _ => "low".toList
  | _, _ => "low".toList

/-- Sort key of `detectConflicts`
(`src/src/utils/conflict-detector.js:15-17`); the callers only pass events
with valid start instants. -/
def startMsKey (e : Event) : Int := (dateMs e.startTime).getD 0

/-- Inner double loop of `detectConflicts`
(`src/src/utils/conflict-detector.js:20-34`): for `i < j` in the sorted
array, record each overlapping pair with its severity. -/
def conflictPairs : List Event → List (Event × Event × JStr)
  | [] => []
  | e :: rest =>
    (rest.filter (fun o => eventsOverlap e o)).map
      (fun o => (e, o, calculateSeverity e o)) ++ conflictPairs rest

/-- `detectConflicts(events)` (`src/src/utils/conflict-detector.js:11-37`). -/
def detectConflicts (events : List Event) : List (Event × Event × JStr) :=
  conflictPairs (events.mergeSort (fun a b => decide (startMsKey a ≤ startMsKey b)))

/-- `getConflictingEvents(event, allEvents)`
(`src/src/utils/conflict-detector.js:126-131`): all other-id events that
overlap the given one. -/
def getConflictingEvents (e : Event) (allEvents : List Event) : List Event :=
  allEvents.filter (fun o => !(o.id = e.id) && eventsOverlap e o)

/-! ## Ingestion (`handleNewEvents`, `src/src/reminder/reminder.js:1140-1210`) -/

/-- The DOM-source pre-filter (`src/src/reminder/reminder.js:1151-1167`):
with the Google (resp. Outlook) API connected, `google-dom` (resp.
`outlook-dom`) events are skipped. -/
def domSourceSkipped (apiGoogle apiOutlook : Bool) (e : Event) : Bool :=
  (apiGoogle && e.source = "google-dom".toList)
    || (apiOutlook && e.source = "outlook-dom".toList)

/-- The upcoming filter (`src/src/reminder/reminder.js:1170-1176`):
a falsy `startTime` is dropped, an unparseable one gives `NaN` hours-until
whose comparisons are false, otherwise keep `0 < hoursUntil ≤ 24`. -/
def isUpcoming (now : Int) (e : Event) : Bool :=
  match e.startTime with
  | none => false
  | some none => false
  | some (some t) => decide (0 < t - now) && decide (t - now ≤ 24 * (60 * 60 * 1000))

/-- The conflict-annotation loop (`src/src/reminder/reminder.js:1191-1197`),
run when at least one conflict was detected: each event overlapped by
others gets `hasConflict = true` and its overlap count. -/
def annotateConflicts (uniqueEvents : List Event) : List Event :=
  uniqueEvents.map (fun e =>
    let n := (getConflictingEvents e uniqueEvents).length
    if 0 < n then { e with hasConflict := true, conflictCount := n } else e)

/-- `handleNewEvents(events)` (`src/src/reminder/reminder.js:1140-1210`):
filter DOM duplicates and non-upcoming events, deduplicate, annotate
conflicts, persist the canonical list, and schedule each event.  `none`
models an exception escaping the handler (it has no try/catch; the
`onMessage` listener catches it, so the remaining batch work is lost).
The final badge repaint (`updateBadge`) is surface-only and outside the
model. -/
def handleNewEvents (s : SchedState) (apiGoogle apiOutlook : Bool)
    (events : List Event) : Option SchedState :=
  if events.isEmpty then some s
  else
    match deduplicateEvents
        ((events.filter
          (fun e => !domSourceSkipped apiGoogle apiOutlook e)).filter
            (isUpcoming s.now)) with
    | none => none
    | some uniqueEvents =>
      let conflicts := detectConflicts uniqueEvents
      let annotated :=
        if 0 < conflicts.length then annotateConflicts uniqueEvents
        else uniqueEvents
      let s1 := { s with events := annotated }
      some (annotated.foldl scheduleReminder s1)

/-! ## Notification Dispatcher
(`src/src/background/notification-manager.js`)

Each channel is an awaited async call; a call whose body is wrapped in its
own `try`/`catch` can never reject into `triggerAttention`, while an
unguarded one propagates its rejection and aborts the remaining sequence.
The per-channel `…Escapes` functions record, from the source, whether a
channel failure escapes to the caller. -/

/-- The attention channels of `triggerAttention`
(`src/src/background/notification-manager.js:14-50`), in source order. -/
inductive Channel where
  | os
  | popup
  | sound
  | speech
  | badge
  | autoOpen
deriving DecidableEq, Repr

/-- Which channels fail (reject / throw) in a given dispatch. -/
structure ChannelFailures where
  os : Bool
  popup : Bool
  sound : Bool
  speech : Bool
  badge : Bool
  autoOpen : Bool
deriving DecidableEq, Repr

/-- Settings read by the dispatcher.  `showPopup` and `playSound` are
compared with `!== false` (an absent value runs the channel), the others
are plain truthiness tests. -/
structure NotifSettings where
  showPopup : Option Bool
  playSound : Option Bool
  voiceReminder : Bool
  autoOpen : Bool
deriving DecidableEq, Repr

/-- `showOSNotification` (lines 57-92) has no internal `try`/`catch`: its
failure escapes to the caller. -/
def showOSNotificationEscapes (fails : Bool) : Bool := fails

/-- `showReminderWindow` (lines 98-119) wraps its body in `try`/`catch`:
failure is logged, never rethrown. -/
def showReminderWindowEscapes (_fails : Bool) : Bool := false

/-- `playSound` (lines 154-179) wraps everything, including the one
recreate-and-retry of the offscreen surface, in `try`/`catch`. -/
def playSoundEscapes (_fails : Bool) : Bool := false

/-- `speakReminder` (lines 282-319) wraps its body in `try`/`catch`. -/
def speakReminderEscapes (_fails : Bool) : Bool := false

/-- `flashBadge` (lines 251-275) wraps its body in `try`/`catch`. -/
def flashBadgeEscapes (_fails : Bool) : Bool := false

/-- The auto-open branch (lines 41-49) runs inside `setTimeout` with an
internal `try`/`catch`; it can neither block nor abort the caller. -/
def autoOpenEscapes (_fails : Bool) : Bool := false

/-- `triggerAttention(event)`
(`src/src/background/notification-manager.js:14-50`): the awaited channel
sequence.  Returns the channels that ran and whether an exception escaped
the dispatcher (aborting everything after the escaping channel). -/
def triggerAttention (fails : ChannelFailures) (cfg : NotifSettings)
    (e : Event) : List Channel × Bool :=
  let ran := [Channel.os]
  if showOSNotificationEscapes fails.os then (ran, true)
  else
    let ran := ran ++ if cfg.showPopup ≠ some false then [Channel.popup] else []
    if cfg.showPopup ≠ some false && showReminderWindowEscapes fails.popup then
      (ran, true)
    else
      let ran := ran ++ if cfg.playSound ≠ some false then [Channel.sound] else []
      if cfg.playSound ≠ some false && playSoundEscapes fails.sound then
        (ran, true)
      else
        let ran := ran ++ if cfg.voiceReminder then [Channel.speech] else []
        if cfg.voiceReminder && speakReminderEscapes fails.speech then
          (ran, true)
        else
          let ran := ran ++ [Channel.badge]
          if flashBadgeEscapes fails.badge then (ran, true)
          else
            let ran := ran ++
              if cfg.autoOpen && jsTruthyStr e.meetingLink then
                [Channel.autoOpen]
              else []
            (ran, false)

/-! ## Outlook event parsing (`src/src/utils/calendar-api.js:853-877`) -/

/-- `a || b` on optional JS strings (`''` is falsy). -/
def jsOrStr (a b : Option JStr) : Option JStr :=
  if jsTruthyStr a then a else b

/-- A Microsoft Graph `emailAddress` object. -/
structure GraphEmail where
  name : Option JStr
  address : Option JStr
deriving DecidableEq, Repr

/-- A Microsoft Graph attendee; `statusResponse` is `a.status?.response`
(both absences collapsed). -/
structure GraphAttendee where
  emailAddress : Option GraphEmail
  statusResponse : Option JStr
deriving DecidableEq, Repr

/-- `mapOutlookResponseStatus(status)`
(`src/src/utils/calendar-api.js:915-924`): table lookup with
`|| 'needsAction'`. -/
def mapOutlookResponseStatus (status : Option JStr) : JStr :=
  match status with
  | some s =>
    if s = "accepted".toList then "accepted".toList
    else if s = "tentativelyAccepted".toList then "tentative".toList
    else if s = "declined".toList then "declined".toList
    else if s = "notResponded".toList then "needsAction".toList
    else if s = "none".toList then "needsAction".toList
    else "needsAction".toList
  | none => "needsAction".toList

/-- The attendee mapping of `parseOutlookEvents`
(`src/src/utils/calendar-api.js:868-873`): name from
`a.emailAddress?.name || a.emailAddress?.address?.split('@')[0]`, mapped
response status, and `self: false` on every entry. -/
def parseOutlookAttendee (a : GraphAttendee) : Attendee :=
  { name := jsOrStr (a.emailAddress.bind (·.name))
      ((a.emailAddress.bind (·.address)).map (List.takeWhile (· ≠ '@')))
    email := a.emailAddress.bind (·.address)
    responseStatus := mapOutlookResponseStatus a.statusResponse
    self := false }

/-- `(item.attendees || []).map(…)` of `parseOutlookEvents`
(`src/src/utils/calendar-api.js:868-873`). -/
def parseOutlookAttendees (items : List GraphAttendee) : List Attendee :=
  items.map parseOutlookAttendee

/-! ## Token Lifecycle Manager (`src/src/utils/calendar-api.js`) -/

/-- Straightforward prefix test on char lists. -/
def isPrefOf : JStr → JStr → Bool
  | [], _ => true
  | _ :: _, [] => false
  | c :: cs, d :: ds => c = d && isPrefOf cs ds

/-- JS `String.prototype.includes`: substring containment. -/
def containsSub (pat : JStr) : JStr → Bool
  | [] => pat.isEmpty
  | c :: tl => isPrefOf pat (c :: tl) || containsSub pat tl

/-- The non-retryable test of `refreshGoogleToken`
(`src/src/utils/calendar-api.js:347-349`): the error message mentions
`invalid_grant`, `expired` or `revoked`. -/
def isAuthError (m : JStr) : Bool :=
  containsSub "invalid_grant".toList m || containsSub "expired".toList m
    || containsSub "revoked".toList m

/-- A successful token-endpoint response body
(`access_token`, optional `refresh_token`, `expires_in` seconds). -/
structure GoogleTokens where
  access_token : JStr
  refresh_token : Option JStr
  expires_in : Int
deriving DecidableEq, Repr

/-- Outcome the HTTP fetch of one refresh attempt resolves to: parsed
tokens, or the thrown error's message. -/
inductive FetchResult where
  | ok (t : GoogleTokens)
  | err (msg : JStr)
deriving DecidableEq, Repr

/-- Result of a whole `refreshGoogleToken` call together with how many
attempts were actually made. -/
structure RefreshRun where
  result : Except JStr GoogleTokens
  attemptsUsed : Nat
deriving Repr

/-- The retry loop of `refreshGoogleToken`
(`src/src/utils/calendar-api.js:314-361`): `remaining` counts the loop
iterations left, `attempt` is the 1-based attempt number, `lastErr` the
JS `lastError` binding.  A response whose message passes `isAuthError` is
rethrown at once; after the loop, `lastError` is thrown. -/
def refreshGo (resp : Nat → FetchResult) :
    Nat → Nat → JStr → RefreshRun
  | 0, attempt, lastErr => ⟨.error lastErr, attempt - 1⟩
  | remaining + 1, attempt, _lastErr =>
    match resp attempt with
    | .ok t => ⟨.ok t, attempt⟩
    | .err m =>
      if isAuthError m then ⟨.error m, attempt⟩
      else refreshGo resp remaining (attempt + 1) m

/-- `refreshGoogleToken(…, retries = 3)`
(`src/src/utils/calendar-api.js:313-361`). -/
def refreshGoogleToken (resp : Nat → FetchResult) (retries : Nat := 3) :
    RefreshRun :=
  refreshGo resp retries 1 []

/-- The per-provider `TokenRecord` (`calendarConnection.google`,
see `saveConnection`, `src/src/utils/calendar-api.js`). -/
structure Connection where
  connected : Bool
  accessToken : Option JStr
  refreshToken : Option JStr
  expiresAt : Option Int
  authMode : Option JStr
deriving DecidableEq, Repr

/-- `saveConnection('google', { connected: false })` replaces the whole
provider record (`connections[provider] = data`). -/
def disconnectedConn : Connection :=
  { connected := false, accessToken := none, refreshToken := none
    expiresAt := none, authMode := none }

/-- What one `getValidToken` call produces: the returned token (or null),
the stored connection record afterwards, and whether the
"reconnect required" notification (`notifyTokenExpired`) fired. -/
structure TokenOutcome where
  token : Option JStr
  conn : Connection
  reconnectNotified : Bool
deriving DecidableEq, Repr

/-- `getValidToken()` (`src/src/utils/calendar-api.js:929-1047`).
Parameters stand for the awaited externals: `now` for `Date.now()`,
`clientId` for `getCredentials('google')?.clientId`, `resp` for the
token-endpoint responses, and `simpleBranch` for the
`authMode === 'simple'` path (which refreshes through `chrome.identity`,
not the provider's refresh endpoint, and is outside this claim's scope).
Branches in source order: disconnected or token missing → null; not yet
within 5 minutes of expiry → the stored token unchanged; else refresh:
missing client ID throws into the `catch` (disconnect, notify, null);
refresh success persists new token/expiry keeping the old refresh
credential if none was issued; refresh failure and the
no-refresh-credential case disconnect, notify, and return null. -/
def getValidToken (conn : Connection) (now : Int) (clientId : Option JStr)
    (resp : Nat → FetchResult) (simpleBranch : TokenOutcome) :
    TokenOutcome :=
  if !conn.connected || !jsTruthyStr conn.accessToken then
    ⟨none, conn, false⟩
  else if (match conn.expiresAt with
           | some exp => decide (exp - 300000 < now)
           | none => false) then
    if conn.authMode = some "simple".toList then simpleBranch
    else if jsTruthyStr conn.refreshToken then
      if !jsTruthyStr clientId then ⟨none, disconnectedConn, true⟩
      else
        match (refreshGoogleToken resp 3).result with
        | .ok t =>
          let conn' := { conn with
            accessToken := some t.access_token
            refreshToken := jsOrStr t.refresh_token conn.refreshToken
            expiresAt := some (now + t.expires_in * 1000) }
          ⟨some t.access_token, conn', false⟩
        | .error _ => ⟨none, disconnectedConn, true⟩
    else ⟨none, disconnectedConn, true⟩
  else ⟨conn.accessToken, conn, false⟩

/-! ## Theorems -/

/-- Claim C7: for all event pairs `a, b` (with parseable start instants
`sa, sb` and effective ends `ea, eb`, a missing end defaulting to start
plus one hour), `eventsOverlap a b` holds iff `sa < eb ∧ sb < ea`; the
intervals are half-open, so `ea = sb` forces no overlap. -/
theorem overlap_iff_halfOpen (a b : Event) (sa sb ea eb : Int)
    (hsa : dateMs a.startTime = some sa) (hsb : dateMs b.startTime = some sb)
    (hea : effEnd sa a.endTime = some ea) (heb : effEnd sb b.endTime = some eb) :
    (eventsOverlap a b = true ↔ (sa < eb ∧ sb < ea))
      ∧ (ea = sb → eventsOverlap a b = false) := by
  unfold eventsOverlap
  rw [hsa, hsb]
  simp only [hea, heb]
  constructor
  · simp
  · intro h
    simp [h]

/-- Sample event: 9:00-10:00 (epoch ms on a day whose midnight is 0). -/
def evA : Event :=
  { id := "a".toList, title := some "Sync A".toList,
    startTime := some (some 32400000), endTime := some (some 36000000),
    attendees := [], meetingLink := none, description := none,
    location := none, source := "google-api".toList }

/-- Sample event: 10:00-11:00. -/
def evB : Event :=
  { id := "b".toList, title := some "Sync B".toList,
    startTime := some (some 36000000), endTime := some (some 39600000),
    attendees := [], meetingLink := none, description := none,
    location := none, source := "google-api".toList }

/-- Sample event: 9:30-10:30. -/
def evC : Event :=
  { id := "c".toList, title := some "Sync C".toList,
    startTime := some (some 34200000), endTime := some (some 37800000),
    attendees := [], meetingLink := none, description := none,
    location := none, source := "google-api".toList }

/-- Concrete instantiation of `overlap_iff_halfOpen`: the 9:00-10:00
meeting does not overlap the 10:00-11:00 one (half-open boundary), and
does overlap the 9:30-10:30 one. -/
theorem overlap_iff_halfOpen_witness :
    eventsOverlap evA evB = false ∧ eventsOverlap evA evC = true := by
  constructor
  · exact (overlap_iff_halfOpen evA evB 32400000 36000000 36000000 39600000
      rfl rfl rfl rfl).2 rfl
  · exact (overlap_iff_halfOpen evA evC 32400000 34200000 36000000 37800000
      rfl rfl rfl rfl).1.mpr (by norm_num)

/-- Claim C8: for every overlapping event pair, severity is `high` when
the start instants coincide; otherwise `high` exactly when the overlap
duration exceeds 30 minutes, `medium` when it exceeds 15 minutes, and
`low` otherwise — the bands are strict, so a 30-minute overlap with
distinct starts is `medium`. -/
theorem severity_bands (a b : Event) (sa sb ea eb : Int)
    (hsa : dateMs a.startTime = some sa) (hsb : dateMs b.startTime = some sb)
    (hea : effEnd sa a.endTime = some ea) (heb : effEnd sb b.endTime = some eb)
    (_hov : eventsOverlap a b = true) :
    calculateSeverity a b =
      (if sa = sb then "high".toList
       else if (30 : ℚ) < ((min ea eb : ℚ) - (max sa sb : ℚ)) / 60000 then
         "high".toList
       else if (15 : ℚ) < ((min ea eb : ℚ) - (max sa sb : ℚ)) / 60000 then
         "medium".toList
       else "low".toList) := by
  unfold calculateSeverity
  rw [hsa, hsb]
  simp only [hea, heb]
  norm_num

/-- Concrete instantiation of `severity_bands`: 9:00-10:00 versus
9:30-10:30 overlap by exactly 30 minutes with distinct starts, so the
severity is `medium`, not `high`. -/
theorem severity_bands_witness :
    calculateSeverity evA evC = "medium".toList := by
  have hov : eventsOverlap evA evC = true := by decide
  rw [severity_bands evA evC 32400000 34200000 36000000 37800000
    rfl rfl rfl rfl hov]
  norm_num

/-- The guard of `scheduleReminder`
(`src/src/reminder/reminder.js:1236-1240`): when a durable timer with the
derived name is already live, the whole call is a no-op. -/
theorem scheduleReminder_noop (s : SchedState) (e : Event)
    (h : (alarmGet s.alarms (alarmKey e)).isSome) :
    scheduleReminder s e = s := by
  unfold scheduleReminder
  split
  · rfl
  · split
    · rfl
    · split
      · rfl
      next hg =>
        rw [hg] at h
        simp at h

/-- What one `scheduleReminder` call does to the alarm list: nothing, or —
only after `chrome.alarms.get` reported no live timer under the derived
name — append that name. -/
theorem scheduleReminder_alarms_cases (s : SchedState) (e : Event) :
    (scheduleReminder s e).alarms = s.alarms
    ∨ (alarmGet s.alarms (alarmKey e) = none
        ∧ ∃ w, (scheduleReminder s e).alarms
            = alarmCreate s.alarms (alarmKey e) w) := by
  unfold scheduleReminder
  split
  · left; rfl
  · split
    · left; rfl
    · split
      · left; rfl
      next hg =>
        split
        · left; rfl
        · split
          · right; exact ⟨hg, _, rfl⟩
          · left; rfl

/-- One `scheduleReminder` call preserves "at most one live timer named
`k`". -/
theorem alarmCount_scheduleReminder (s : SchedState) (e : Event) (k : JStr)
    (h : alarmCount s.alarms k ≤ 1) :
    alarmCount (scheduleReminder s e).alarms k ≤ 1 := by
  rcases scheduleReminder_alarms_cases s e with heq | ⟨hg, w, heq⟩
  · rw [heq]; exact h
  · rw [heq]
    unfold alarmCount alarmCreate
    rw [List.countP_append]
    by_cases hk : alarmKey e = k
    · subst hk
      have hz : List.countP (fun a => decide (a.1 = alarmKey e)) s.alarms = 0 := by
        rw [List.countP_eq_zero]
        intro a ha
        exact List.find?_eq_none.mp hg a ha
      rw [hz]
      simp
    · have hone : List.countP (fun a => decide (a.1 = k)) [(alarmKey e, w)] = 0 := by
        simp [hk]
      rw [hone]
      simpa [alarmCount] using h

/-- Startup re-walk preserves the at-most-one-live-timer bound for every
name: `loadStoredEvents` is a fold of `scheduleReminder` over the
persisted canonical set. -/
theorem alarmCount_foldl_scheduleReminder (es : List Event) (s : SchedState)
    (k : JStr) (h : alarmCount s.alarms k ≤ 1) :
    alarmCount (es.foldl scheduleReminder s).alarms k ≤ 1 := by
  induction es generalizing s with
  | nil => exact h
  | cons e rest ih =>
    exact ih (scheduleReminder s e) (alarmCount_scheduleReminder s e k h)

/-- Claim C1: scheduling the same logical meeting twice — with a restart
re-walk (`loadStoredEvents`) of the stored event set in between — never
yields a second live timer with the shared derived name, because the
facility is queried by name first and the call is a no-op when a timer
already exists. -/
theorem schedule_twice_single_trigger (s : SchedState) (e1 e2 : Event)
    (_hkey : alarmKey e1 = alarmKey e2)
    (h : alarmCount s.alarms (alarmKey e2) ≤ 1) :
    alarmCount
      (scheduleReminder (loadStoredEvents (scheduleReminder s e1)) e2).alarms
      (alarmKey e2) ≤ 1
    ∧ (∀ s' : SchedState, (alarmGet s'.alarms (alarmKey e2)).isSome →
        scheduleReminder s' e2 = s') := by
  refine ⟨?_, fun s' h' => scheduleReminder_noop s' e2 h'⟩
  have h1 := alarmCount_scheduleReminder s e1 (alarmKey e2) h
  have h2 := alarmCount_foldl_scheduleReminder
    (scheduleReminder s e1).events (scheduleReminder s e1) (alarmKey e2) h1
  exact alarmCount_scheduleReminder _ e2 (alarmKey e2) h2

/-- Concrete instantiation of `schedule_twice_single_trigger`: the same
meeting reported by the Google API and by a page scrape (same title and
minute, different ids), scheduled twice from an empty alarm set around a
restart re-walk, leaves exactly one live timer under the derived name. -/
theorem schedule_twice_single_trigger_witness :
    alarmKey evA = alarmKey evA
    ∧ alarmCount (SchedState.mk [] [] [] ⟨2⟩ 0).alarms (alarmKey evA) ≤ 1
    ∧ alarmCount
        (scheduleReminder
          (loadStoredEvents (scheduleReminder (SchedState.mk [] [] [] ⟨2⟩ 0) evA))
          evA).alarms (alarmKey evA) ≤ 1
    ∧ alarmCount
        (scheduleReminder
          (loadStoredEvents (scheduleReminder (SchedState.mk [] [] [] ⟨2⟩ 0) evA))
          evA).alarms (alarmKey evA) = 1 := by
  refine ⟨rfl, by decide, ?_, by decide⟩
  exact (schedule_twice_single_trigger (SchedState.mk [] [] [] ⟨2⟩ 0) evA evA
    rfl (by decide)).1

/-- A defined `dedupKey` exposes the title and the inline key expression
computed by `deduplicateEvents`. -/
theorem exists_of_dedupKey {e : Event} {k : JStr} (h : dedupKey e = some k) :
    ∃ t, e.title = some t
      ∧ jsTrim (jsLower t) ++ '_' :: roundedTimeStr e.startTime = k := by
  cases ht : e.title with
  | none => rw [dedupKey, ht] at h; simp at h
  | some t =>
    rw [dedupKey, ht] at h
    simp at h
    exact ⟨t, rfl, by simpa [List.append_eq] using h⟩

/-- Running `deduplicateEvents` on a two-element batch with a shared
identity key keeps the first event unless the second has the strictly
higher richness score, in which case it is replaced in place. -/
theorem deduplicateEvents_pair (a b : Event) (k : JStr)
    (ha : dedupKey a = some k) (hb : dedupKey b = some k) :
    deduplicateEvents [a, b] = some [if hasMoreDetails b a then b else a] := by
  obtain ⟨ta, hta, hka⟩ := exists_of_dedupKey ha
  obtain ⟨tb, htb, hkb⟩ := exists_of_dedupKey hb
  by_cases hmd : hasMoreDetails b a
  · simp [deduplicateEvents, dedupGo, hta, htb, hka, hkb, hmd, List.lookup,
      List.indexOf, List.findIdx, List.findIdx.go, mapSet]
  · simp [deduplicateEvents, dedupGo, hta, htb, hka, hkb, hmd, List.lookup]

/-- Claim C2: two raw events of the same logical meeting (equal identity
keys) reconcile to exactly one canonical event — the strictly richer one,
whichever arrival order; equal scores keep the first-processed entry. -/
theorem reconcile_richer_commutative (e1 e2 : Event) (k : JStr)
    (h1 : dedupKey e1 = some k) (h2 : dedupKey e2 = some k) :
    (richness e1 ≠ richness e2 →
      deduplicateEvents [e1, e2]
          = some [if richness e1 > richness e2 then e1 else e2]
        ∧ deduplicateEvents [e2, e1]
          = some [if richness e1 > richness e2 then e1 else e2])
    ∧ (richness e1 = richness e2 →
      deduplicateEvents [e1, e2] = some [e1]
        ∧ deduplicateEvents [e2, e1] = some [e2]) := by
  have p12 := deduplicateEvents_pair e1 e2 k h1 h2
  have p21 := deduplicateEvents_pair e2 e1 k h2 h1
  constructor
  · intro hne
    rw [p12, p21]
    by_cases hgt : richness e1 > richness e2
    · have hnlt : ¬(richness e2 > richness e1) := by omega
      simp [hasMoreDetails, hgt, hnlt]
    · have hlt : richness e2 > richness e1 := by omega
      simp [hasMoreDetails, hgt, hlt]
  · intro heqr
    rw [p12, p21]
    simp [hasMoreDetails, heqr]

/-- Rich report of a meeting (API source: link, attendee, description). -/
def evRich : Event :=
  { id := "g1".toList, title := some "Sync".toList,
    startTime := some (some 32400000), endTime := some (some 36000000),
    attendees := [⟨some "P Q".toList, some "p@x.com".toList,
      "accepted".toList, true⟩],
    meetingLink := some "https://meet.google.com/abc".toList,
    description := some "Agenda".toList, location := none,
    source := "google-api".toList }

/-- Sparse report of the same meeting (scraped: padded title case, start
reported 30s later inside the same minute, no details). -/
def evPoor : Event :=
  { id := "d1".toList, title := some " SYNC ".toList,
    startTime := some (some 32400030), endTime := none,
    attendees := [], meetingLink := none, description := none,
    location := none, source := "google-dom".toList }

/-- Concrete instantiation of `reconcile_richer_commutative`: the rich and
the sparse report of the same meeting collapse to the rich one in both
arrival orders. -/
theorem reconcile_richer_commutative_witness :
    deduplicateEvents [evRich, evPoor] = some [evRich]
      ∧ deduplicateEvents [evPoor, evRich] = some [evRich] := by
  have h := (reconcile_richer_commutative evRich evPoor
    "sync_32400000".toList (by decide) (by decide)).1 (by decide)
  rwa [if_pos (by decide)] at h

/-- Decimal digit characters are not whitespace. -/
theorem digitChar_not_space (m : Nat) (hm : m < 10) :
    isJsSpace (Nat.digitChar m) = false := by
  interval_cases m <;> decide

/-- No character produced by `Nat.toDigitsCore` is whitespace, provided
the accumulator has none. -/
theorem toDigitsCore_not_space (fuel : Nat) :
    ∀ (n : Nat) (ds : List Char), (∀ c ∈ ds, isJsSpace c = false) →
      ∀ c ∈ Nat.toDigitsCore 10 fuel n ds, isJsSpace c = false := by
  induction fuel with
  | zero =>
    intro n ds hds c hc
    exact hds c (by simpa [Nat.toDigitsCore] using hc)
  | succ fuel ih =>
    intro n ds hds c hc
    simp only [Nat.toDigitsCore] at hc
    by_cases h0 : n / 10 = 0
    · rw [if_pos h0] at hc
      rcases List.mem_cons.mp hc with hc | hc
      · rw [hc]; exact digitChar_not_space _ (Nat.mod_lt _ (by decide))
      · exact hds c hc
    · rw [if_neg h0] at hc
      refine ih (n / 10) (Nat.digitChar (n % 10) :: ds) ?_ c hc
      intro d hd
      rcases List.mem_cons.mp hd with hd | hd
      · rw [hd]; exact digitChar_not_space _ (Nat.mod_lt _ (by decide))
      · exact hds d hd

/-- The JS rendering of an integral number contains no whitespace. -/
theorem jsNumStr_not_space (n : Int) :
    ∀ c ∈ jsNumStr n, isJsSpace c = false := by
  cases n with
  | ofNat m =>
    intro c hc
    exact toDigitsCore_not_space (m + 1) m [] (by simp) c hc
  | negSucc m =>
    intro c hc
    have : jsNumStr (Int.negSucc m) = '-' :: Nat.toDigits 10 (m + 1) := rfl
    rw [this] at hc
    rcases List.mem_cons.mp hc with hc | hc
    · rw [hc]; decide
    · exact toDigitsCore_not_space (m + 2) (m + 1) [] (by simp) c hc

/-- The rounded-start-time string (digits or `NaN`) has no whitespace. -/
theorem roundedTimeStr_not_space (v : Option (Option Int)) :
    ∀ c ∈ roundedTimeStr v, isJsSpace c = false := by
  unfold roundedTimeStr
  cases dateMs v with
  | none => decide
  | some t => exact jsNumStr_not_space _

/-- `collapseGo` is the identity on whitespace-free input. -/
theorem collapseGo_nospace (z : JStr) :
    ∀ b : Bool, (∀ c ∈ z, isJsSpace c = false) → collapseGo z b = z := by
  induction z with
  | nil => intro b _; rfl
  | cons c cs ih =>
    intro b hz
    have hc : isJsSpace c = false := hz c (by simp)
    simp [collapseGo, hc, ih false (fun d hd => hz d (by simp [hd]))]

/-- Appending a whitespace-free suffix commutes with whitespace
collapsing. -/
theorem collapseGo_append_nospace (y : JStr) (z : JStr)
    (hz : ∀ c ∈ z, isJsSpace c = false) :
    ∀ b : Bool, collapseGo (y ++ z) b = collapseGo y b ++ z := by
  induction y with
  | nil => intro b; simpa using collapseGo_nospace z b hz
  | cons c cs ih =>
    intro b
    by_cases hc : isJsSpace c
    · cases b <;> simp [collapseGo, hc, ih]
    · simp [collapseGo, hc, ih]

/-- The Scheduler's trigger name is a function of the Reconciler's
identity key: prepend `'meeting_'` and collapse whitespace runs. -/
theorem alarmKey_from_dedupKey (e : Event) (k : JStr)
    (h : dedupKey e = some k) :
    alarmKey e = "meeting_".toList ++ jsCollapseWs k := by
  obtain ⟨t, ht, hk⟩ := exists_of_dedupKey h
  have hz : ∀ c ∈ '_' :: roundedTimeStr e.startTime, isJsSpace c = false := by
    intro c hc
    rcases List.mem_cons.mp hc with hc | hc
    · rw [hc]; decide
    · exact roundedTimeStr_not_space _ c hc
  rw [alarmKey, normalizedTitle, ht, ← hk, jsCollapseWs, jsCollapseWs,
    collapseGo_append_nospace _ _ hz false]
  simp

/-- Claim C3 (amended direction): a Reconciler collision (equal dedup
keys) always yields equal Scheduler trigger names — the converse fails,
see `dedup_key_finer_than_trigger_name`. -/
theorem dedup_collision_same_trigger_name (e1 e2 : Event) (k : JStr)
    (h1 : dedupKey e1 = some k) (h2 : dedupKey e2 = some k) :
    alarmKey e1 = alarmKey e2 := by
  rw [alarmKey_from_dedupKey e1 k h1, alarmKey_from_dedupKey e2 k h2]

/-- Title with a single internal space. -/
def evSpace1 : Event :=
  { id := "s1".toList, title := some "a b".toList,
    startTime := some (some 0), endTime := none, attendees := [],
    meetingLink := none, description := none, location := none,
    source := "google-api".toList }

/-- Same minute, title with a double internal space. -/
def evSpace2 : Event :=
  { id := "s2".toList, title := some "a  b".toList,
    startTime := some (some 0), endTime := none, attendees := [],
    meetingLink := none, description := none, location := none,
    source := "outlook-api".toList }

/-- Claim C3 is false as stated: the Scheduler collapses whitespace runs
(`.replace(/\s+/g, '-')`) while the Reconciler only lower-cases and trims,
so the titles `'a b'` and `'a  b'` at the same minute get the same trigger
name but distinct deduplication keys — the two layers disagree on "same
meeting". -/
theorem dedup_key_finer_than_trigger_name :
    alarmKey evSpace1 = alarmKey evSpace2
      ∧ dedupKey evSpace1 ≠ dedupKey evSpace2 := by
  constructor
  · decide
  · decide

/-- Concrete instantiation of `dedup_collision_same_trigger_name`: the
colliding rich/poor pair also shares its trigger name. -/
theorem dedup_collision_same_trigger_name_witness :
    alarmKey evRich = alarmKey evPoor :=
  dedup_collision_same_trigger_name evRich evPoor
    "sync_32400000".toList (by decide) (by decide)

/-- Empty scheduler world: no timers, no snapshots, no stored events,
default 2-minute lead, clock at 0. -/
def schedInit0 : SchedState :=
  { alarms := [], store := [], events := [], settings := ⟨2⟩, now := 0 }

/-- The user's own Microsoft Graph attendee entry, declined. -/
def rawOutlookUser : GraphAttendee :=
  { emailAddress := some ⟨some "User".toList, some "user@x.com".toList⟩,
    statusResponse := some "declined".toList }

/-- The PingMeet event `parseOutlookEvents` builds for a declined Outlook
meeting: the attendee list goes through the mapping of lines 868-873, so
every `self` flag is `false`. -/
def evOutlookDeclined : Event :=
  { id := "outlook_77".toList, title := some "Board".toList,
    startTime := some (some 32400000), endTime := some (some 36000000),
    attendees := parseOutlookAttendees [rawOutlookUser],
    meetingLink := none, description := some [], location := some [],
    source := "outlook-api".toList }

/-- Claim C4 is false for Outlook API events: the user's own attendee
entry carries `responseStatus = 'declined'`, yet `scheduleReminder`
creates the trigger, because `parseOutlookEvents` hard-codes
`self: false` and the declined-check only looks at the `self` flag. -/
theorem outlook_declined_still_scheduled :
    ((evOutlookDeclined.attendees.find?
        (fun a => a.email = some "user@x.com".toList)).map
      (fun a => a.responseStatus)) = some "declined".toList
    ∧ alarmCount (scheduleReminder schedInit0 evOutlookDeclined).alarms
        (alarmKey evOutlookDeclined) = 1 := by
  constructor
  · decide
  · decide

/-- Claim C4 (amended): `scheduleReminder` never schedules an event whose
`self`-flagged attendee has declined — but the Outlook parser marks no
attendee as `self`, so a declined Outlook-API meeting is still
scheduled. -/
theorem declined_skip_requires_self_flag :
    (∀ (s : SchedState) (e : Event), userDeclined e = true →
      scheduleReminder s e = s)
    ∧ (∀ (raws : List GraphAttendee) (e : Event),
        e.attendees = parseOutlookAttendees raws → userDeclined e = false) := by
  constructor
  · intro s e h
    unfold scheduleReminder
    split
    · rfl
    · rw [if_pos h]
  · intro raws e hatt
    rw [userDeclined, hatt]
    have : (parseOutlookAttendees raws).find? (fun a => a.self) = none := by
      rw [List.find?_eq_none]
      intro a ha
      rw [parseOutlookAttendees] at ha
      obtain ⟨raw, _, hraw⟩ := List.mem_map.mp ha
      rw [← hraw]
      simp [parseOutlookAttendee]
    rw [this]

/-- A Google-API event whose `self` attendee declined. -/
def evGoogleDeclined : Event :=
  { id := "g9".toList, title := some "Review".toList,
    startTime := some (some 32400000), endTime := some (some 36000000),
    attendees := [⟨some "Me".toList, some "me@x.com".toList,
      "declined".toList, true⟩],
    meetingLink := none, description := none, location := none,
    source := "google-api".toList }

/-- Concrete instantiation of `declined_skip_requires_self_flag`: the
declined Google event is skipped; the declined Outlook event is not even
recognised as declined. -/
theorem declined_skip_requires_self_flag_witness :
    scheduleReminder schedInit0 evGoogleDeclined = schedInit0
    ∧ userDeclined evOutlookDeclined = false := by
  constructor
  · exact declined_skip_requires_self_flag.1 schedInit0 evGoogleDeclined
      (by decide)
  · exact declined_skip_requires_self_flag.2 [rawOutlookUser]
      evOutlookDeclined rfl

/-- A scheduled meeting about to be declined from the reminder popup,
which sends the producer-scoped `event.id`. -/
def evStandup : Event :=
  { id := "evt1".toList, title := some "Standup".toList,
    startTime := some (some 32400000), endTime := some (some 36000000),
    attendees := [], meetingLink := none, description := none,
    location := none, source := "google-api".toList }

/-- Claim C5 fails on the code: after scheduling `evStandup` (trigger
named from its normalized title and minute), `handleDecline('evt1')`
clears the alarm `'meeting_evt1'` and removes the snapshot key
`'alarm_evt1'` — neither exists — so the meeting's live timer and its
snapshot both survive the decline and the reminder will still fire. -/
theorem decline_leaves_trigger_live :
    alarmCount
        (handleDecline (scheduleReminder schedInit0 evStandup)
          "evt1".toList).alarms
        (alarmKey evStandup) = 1
    ∧ (handleDecline (scheduleReminder schedInit0 evStandup)
          "evt1".toList).store.lookup (storageKey (alarmKey evStandup))
        = some evStandup := by
  constructor
  · decide
  · decide

/-- The channels a dispatch enables, in `triggerAttention`'s source
order: OS notification and badge always; popup and sound unless switched
off; speech if enabled; auto-open if enabled and a link exists. -/
def enabledChannels (cfg : NotifSettings) (e : Event) : List Channel :=
  [Channel.os]
    ++ (if cfg.showPopup ≠ some false then [Channel.popup] else [])
    ++ (if cfg.playSound ≠ some false then [Channel.sound] else [])
    ++ (if cfg.voiceReminder then [Channel.speech] else [])
    ++ [Channel.badge]
    ++ (if cfg.autoOpen && jsTruthyStr e.meetingLink then [Channel.autoOpen]
        else [])

/-- All channels enabled. -/
def cfgAllOn : NotifSettings :=
  { showPopup := some true, playSound := some true, voiceReminder := true
    autoOpen := true }

/-- Claim C9 (amended): every conditional channel catches its own failure,
so as long as the OS notification resolves, all enabled channels run
whatever the other channels do; but the unguarded OS notification aborts
the whole dispatch when it fails. -/
theorem channels_isolated_except_os (f : ChannelFailures)
    (cfg : NotifSettings) (e : Event) :
    (f.os = false → triggerAttention f cfg e = (enabledChannels cfg e, false))
    ∧ (f.os = true → triggerAttention f cfg e = ([Channel.os], true)) := by
  constructor
  · intro h
    simp [triggerAttention, enabledChannels, showOSNotificationEscapes,
      showReminderWindowEscapes, playSoundEscapes, speakReminderEscapes,
      flashBadgeEscapes, autoOpenEscapes, h]
  · intro h
    simp [triggerAttention, showOSNotificationEscapes, h]

/-- Concrete instantiation of `channels_isolated_except_os`: with every
conditional channel failing but the OS notification resolving, all six
channels still run and no exception escapes. -/
theorem channels_isolated_except_os_witness :
    triggerAttention ⟨false, true, true, true, true, true⟩ cfgAllOn evRich
      = ([Channel.os, Channel.popup, Channel.sound, Channel.speech,
          Channel.badge, Channel.autoOpen], false) := by
  rw [(channels_isolated_except_os ⟨false, true, true, true, true, true⟩
    cfgAllOn evRich).1 rfl]
  decide

/-- Claim C9 is false as stated for the OS channel: its rejection is not
caught inside `triggerAttention`, so with all channels enabled a failing
OS notification leaves popup, sound, speech, badge and auto-open unrun. -/
theorem os_failure_blocks_other_channels :
    triggerAttention ⟨true, false, false, false, false, false⟩ cfgAllOn evRich
        = ([Channel.os], true)
    ∧ Channel.popup ∉
        (triggerAttention ⟨true, false, false, false, false, false⟩
          cfgAllOn evRich).1 := by
  constructor
  · decide
  · decide

/-- Claim C6: a refresh response naming an invalid/expired/revoked
credential (`isAuthError`) on the first attempt aborts the retry loop at
exactly one attempt, and the surrounding `getValidToken` stores a
disconnected record, raises the reconnect notification, and returns
null. -/
theorem invalid_grant_aborts_and_disconnects (conn : Connection)
    (now exp : Int) (cid : Option JStr) (resp : Nat → FetchResult)
    (sb : TokenOutcome) (m : JStr)
    (hconn : conn.connected = true)
    (hat : jsTruthyStr conn.accessToken = true)
    (hexp : conn.expiresAt = some exp) (hexpired : exp - 300000 < now)
    (hmode : conn.authMode ≠ some "simple".toList)
    (hrt : jsTruthyStr conn.refreshToken = true)
    (hcid : jsTruthyStr cid = true)
    (hresp : resp 1 = .err m) (hauth : isAuthError m = true) :
    refreshGoogleToken resp 3 = ⟨.error m, 1⟩
    ∧ getValidToken conn now cid resp sb = ⟨none, disconnectedConn, true⟩ := by
  have hrun : refreshGoogleToken resp 3 = ⟨.error m, 1⟩ := by
    rw [refreshGoogleToken, refreshGo, hresp]
    simp [hauth]
  refine ⟨hrun, ?_⟩
  rw [getValidToken, hexp]
  rw [if_neg (by simp [hconn, hat])]
  rw [if_pos (by simpa using hexpired)]
  rw [if_neg hmode, if_pos hrt, if_neg (by simp [hcid]), hrun]

/-- An expired advanced-mode Google connection. -/
def connExpired : Connection :=
  { connected := true, accessToken := some "tok0".toList,
    refreshToken := some "r1".toList, expiresAt := some 1000000,
    authMode := some "advanced".toList }

/-- Concrete instantiation of `invalid_grant_aborts_and_disconnects`: a
mocked `invalid_grant` response is never retried (one attempt) and leaves
a disconnected, notified, null-token outcome. -/
theorem invalid_grant_aborts_and_disconnects_witness :
    refreshGoogleToken (fun _ => .err "invalid_grant".toList) 3
        = ⟨.error "invalid_grant".toList, 1⟩
    ∧ getValidToken connExpired 2000000 (some "client-id".toList)
        (fun _ => .err "invalid_grant".toList)
        ⟨none, disconnectedConn, false⟩
      = ⟨none, disconnectedConn, true⟩ :=
  invalid_grant_aborts_and_disconnects connExpired 2000000 1000000
    (some "client-id".toList) (fun _ => .err "invalid_grant".toList)
    ⟨none, disconnectedConn, false⟩ "invalid_grant".toList
    rfl (by decide) rfl (by decide) (by decide) (by decide) (by decide)
    rfl (by decide)

/-- An event passing the upcoming filter always has a parseable start
instant: a missing or unparseable start is dropped by that filter. -/
theorem isUpcoming_imp_validStart (now : Int) (e : Event)
    (h : isUpcoming now e = true) : (dateMs e.startTime).isSome = true := by
  unfold isUpcoming at h
  cases hst : e.startTime with
  | none => rw [hst] at h; simp at h
  | some v =>
    cases v with
    | none => rw [hst] at h; simp at h
    | some t => simp [dateMs, hst]

/-- Claim C10 (amended): events whose start time is missing or
unparseable are dropped by the upcoming filter without any error, and
their presence leaves the handling of the rest of the batch unchanged
(as long as something well-formed remains).  Events lacking a *title*
are not covered: see `malformed_title_aborts_batch`. -/
theorem malformed_start_events_harmless (s : SchedState)
    (apiG apiO : Bool) (es : List Event)
    (hne : es.filter (fun e => (dateMs e.startTime).isSome) ≠ []) :
    (∀ e ∈ es, dateMs e.startTime = none → isUpcoming s.now e = false)
    ∧ handleNewEvents s apiG apiO es
        = handleNewEvents s apiG apiO
            (es.filter (fun e => (dateMs e.startTime).isSome)) := by
  constructor
  · intro e _ h
    cases hu : isUpcoming s.now e
    · rfl
    · have := isUpcoming_imp_validStart s.now e hu
      rw [h] at this
      simp at this
  · have hes : es ≠ [] := by
      intro h
      subst h
      simp at hne
    have hup : (es.filter
          (fun e => !domSourceSkipped apiG apiO e)).filter (isUpcoming s.now)
        = ((es.filter (fun e => (dateMs e.startTime).isSome)).filter
            (fun e => !domSourceSkipped apiG apiO e)).filter
              (isUpcoming s.now) := by
      rw [List.filter_filter, List.filter_filter, List.filter_filter]
      apply List.filter_congr
      intro e _
      cases hu : isUpcoming s.now e
      · simp
      · simp [isUpcoming_imp_validStart s.now e hu]
    unfold handleNewEvents
    rw [if_neg (by simpa [List.isEmpty_iff] using hes),
      if_neg (by simpa [List.isEmpty_iff] using hne), hup]

/-- A well-formed-looking event with no title at all. -/
def evNoTitle : Event :=
  { id := "x1".toList, title := none,
    startTime := some (some 33000000), endTime := none, attendees := [],
    meetingLink := none, description := none, location := none,
    source := "google-dom".toList }

/-- Claim C10 is false for title-less events: a batch holding a good
event and a title-less one aborts (`deduplicateEvents` throws a TypeError
on `event.title.toLowerCase()`), so the good event is neither persisted
nor scheduled, although the same batch without the malformed event
processes fine. -/
theorem malformed_title_aborts_batch :
    handleNewEvents schedInit0 false false [evRich, evNoTitle] = none
    ∧ (handleNewEvents schedInit0 false false [evRich]).isSome = true := by
  constructor
  · decide
  · decide

/-- Concrete instantiation of `malformed_start_events_harmless`: a batch
with one good event, one start-less event and one unparseable-start event
behaves exactly like the batch holding only the good event. -/
theorem malformed_start_events_harmless_witness :
    handleNewEvents schedInit0 false false
        [evRich,
          { id := "m1".toList, title := some "Ghost".toList,
            startTime := none, endTime := none, attendees := [],
            meetingLink := none, description := none, location := none,
            source := "google-dom".toList },
          { id := "m2".toList, title := some "Garbled".toList,
            startTime := some none, endTime := none, attendees := [],
            meetingLink := none, description := none, location := none,
            source := "google-dom".toList }]
      = handleNewEvents schedInit0 false false
          (List.filter (fun e => (dateMs e.startTime).isSome)
            [evRich,
              { id := "m1".toList, title := some "Ghost".toList,
                startTime := none, endTime := none, attendees := [],
                meetingLink := none, description := none, location := none,
                source := "google-dom".toList },
              { id := "m2".toList, title := some "Garbled".toList,
                startTime := some none, endTime := none, attendees := [],
                meetingLink := none, description := none, location := none,
                source := "google-dom".toList }])
      ∧ List.filter (fun e => (dateMs e.startTime).isSome)
            [evRich,
              { id := "m1".toList, title := some "Ghost".toList,
                startTime := none, endTime := none, attendees := [],
                meetingLink := none, description := none, location := none,
                source := "google-dom".toList },
              { id := "m2".toList, title := some "Garbled".toList,
                startTime := some none, endTime := none, attendees := [],
                meetingLink := none, description := none, location := none,
                source := "google-dom".toList }]
          = [evRich] := by
  refine ⟨?_, by decide⟩
  have h := (malformed_start_events_harmless schedInit0 false false
    [evRich,
      { id := "m1".toList, title := some "Ghost".toList,
        startTime := none, endTime := none, attendees := [],
        meetingLink := none, description := none, location := none,
        source := "google-dom".toList },
      { id := "m2".toList, title := some "Garbled".toList,
        startTime := some none, endTime := none, attendees := [],
        meetingLink := none, description := none, location := none,
        source := "google-dom".toList }] (by decide)).2
  rw [h]

end PingMeet
